import Mathlib

/-!
Verification of the PTY session multiplexer in
`src/app/openchat-react-pc/src-tauri/src/pty.rs`.

The Rust module keeps a global `Mutex<HashMap<String, PtyPair>>` and exposes
four commands: `create_pty`, `write_pty`, `resize_pty`, `destroy_pty`.
We embed the module shallowly:

* the global map becomes an explicit association list `Registry` threaded
  through each operation (the mutex serialises the commands, so each command
  is one atomic state transformation on the map);
* a `PtyPair` is modelled by the observables the commands touch: the size
  passed to `openpty`/`resize`, the program spawned on the slave end, the
  number of `take_writer` acquisitions on the master end, the sequence of
  write/flush events delivered to the master's writable handle, and whether
  any background read task (output forwarder) was started for the pair;
* fallible OS calls (`openpty`, `spawn_command`, `take_writer`, `write_all`,
  `flush`, `resize`) are parametrised by an environment `Env` that decides,
  for each kind of call, whether the OS reports an error (`some msg`,
  embedded through `map_err(|e| e.to_string())`) or succeeds (`none`);
* each command returns the post-state of the map together with its
  `Result<(), String>`, embedded as `Registry × Except String Unit`;
* the `data : String` payload of `write_pty` is embedded as the byte list
  `data.as_bytes()` produces, since only those bytes reach the handle.
-/

namespace OpenChat.Pty

/-- The `PtySize` struct from `portable_pty` as `pty.rs` fills it:
`rows`, `cols`, `pixel_width`, `pixel_height` (all `u16`, embedded as `Nat`). -/
structure PtySize where
  rows : Nat
  cols : Nat
  pixel_width : Nat
  pixel_height : Nat
deriving Repr, DecidableEq

/-- One event observed by the master end's writable handle: a `write_all`
of a byte payload, or a `flush`. -/
inductive WriterEvent where
  | write (data : List Nat)
  | flush
deriving Repr, DecidableEq

/-- Observables of one `PtyPair` (master + slave + spawned child) as the
four commands in `pty.rs` manipulate it.

* `size`: the size given to `openpty` and updated by `master.resize`.
* `child`: the program spawned on the slave end (`spawn_command`).
* `writerTakes`: how many times `master.take_writer()` has been acquired.
* `writerEvents`: bytes written to, and flushes of, the writable handle.
* `forwarderStarted`: whether any background read task draining the
  master's readable end was started for this pair (the code never does). -/
structure PtyPair where
  size : PtySize
  child : Option String
  writerTakes : Nat
  writerEvents : List WriterEvent
  forwarderStarted : Bool
deriving Repr, DecidableEq

/-- The global `HashMap<String, PtyPair>` behind the mutex, embedded as an
association list; all observations go through `lookupR`. -/
abbrev Registry := List (String × PtyPair)

/-- `HashMap::get` / `get_mut` lookup. -/
def lookupR : Registry → String → Option PtyPair
  | [], _ => none
  | (k, v) :: rest, id => if k = id then some v else lookupR rest id

/-- `HashMap::remove`: delete every binding of `id` (the list discipline
keeps at most one, but the definition does not depend on that). -/
def removeR : Registry → String → Registry
  | [], _ => []
  | (k, v) :: rest, id =>
    if k = id then removeR rest id else (k, v) :: removeR rest id

/-- `HashMap::insert`: bind `id` to `p`, replacing any previous binding.
Writing through a `get_mut` borrow is the same map transformation. -/
def insertR (r : Registry) (id : String) (p : PtyPair) : Registry :=
  (id, p) :: removeR r id

/-- Outcomes of the fallible OS calls a single command performs: `none`
means the call succeeds, `some e` that it fails and `map_err` turns it
into the message `e`. -/
structure Env where
  openptyErr : Option String
  spawnErr : Option String
  takeWriterErr : Option String
  writeErr : Option String
  flushErr : Option String
  resizeErr : Option String
deriving Repr, DecidableEq

/-- The environment where every OS call succeeds. -/
def envOk : Env :=
  { openptyErr := none, spawnErr := none, takeWriterErr := none,
    writeErr := none, flushErr := none, resizeErr := none }

/-- The pair `create_pty` constructs before inserting it: `openpty` at
24 rows by 80 columns, `spawn_command` of `shell.as_deref().unwrap_or("bash")`,
no writer taken yet, nothing written, and no background read task. -/
def freshPair (shell : Option String) : PtyPair :=
  { size := { rows := 24, cols := 80, pixel_width := 0, pixel_height := 0 },
    child := some (shell.getD "bash"),
    writerTakes := 0,
    writerEvents := [],
    forwarderStarted := false }

/-- `create_pty(id, shell)` from `pty.rs` lines 20-40: `openpty` at the
default 24x80 size, spawn the shell (default `"bash"`), then
`PTY_PAIRS.lock().unwrap().insert(id, pair)`. There is no presence check
before the insert and no task is spawned after it. -/
def create_pty (env : Env) (r : Registry) (id : String) (shell : Option String) :
    Registry × Except String Unit :=
  match env.openptyErr with
  | some e => (r, .error e)
  | none =>
    match env.spawnErr with
    | some e => (r, .error e)
    | none => (insertR r id (freshPair shell), .ok ())

/-- `write_pty(id, data)` from `pty.rs` lines 44-53: look up the pair
(`ok_or("PTY not found")?`), `take_writer` on the master, `write_all`
of `data.as_bytes()`, then `flush`. The lookup is through `get_mut`, so
the effects of steps that succeeded before a later failure persist in
the stored pair. -/
def write_pty (env : Env) (r : Registry) (id : String) (data : List Nat) :
    Registry × Except String Unit :=
  match lookupR r id with
  | none => (r, .error "PTY not found")
  | some pair =>
    match env.takeWriterErr with
    | some e => (r, .error e)
    | none =>
      let pair1 := { pair with writerTakes := pair.writerTakes + 1 }
      match env.writeErr with
      | some e => (insertR r id pair1, .error e)
      | none =>
        let pair2 :=
          { pair1 with writerEvents := pair1.writerEvents ++ [WriterEvent.write data] }
        match env.flushErr with
        | some e => (insertR r id pair2, .error e)
        | none =>
          let pair3 :=
            { pair2 with writerEvents := pair2.writerEvents ++ [WriterEvent.flush] }
          (insertR r id pair3, .ok ())

/-- `resize_pty(id, cols, rows)` from `pty.rs` lines 57-71: look up the
pair (`ok_or("PTY not found")?`), then `master.resize(PtySize { rows,
cols, pixel_width: 0, pixel_height: 0 })`. -/
def resize_pty (env : Env) (r : Registry) (id : String) (cols rows : Nat) :
    Registry × Except String Unit :=
  match lookupR r id with
  | none => (r, .error "PTY not found")
  | some pair =>
    match env.resizeErr with
    | some e => (r, .error e)
    | none =>
      (insertR r id
        { pair with
          size := { rows := rows, cols := cols, pixel_width := 0, pixel_height := 0 } },
       .ok ())

/-- `destroy_pty(id)` from `pty.rs` lines 75-78:
`PTY_PAIRS.lock().unwrap().remove(&id); Ok(())`. -/
def destroy_pty (r : Registry) (id : String) : Registry × Except String Unit :=
  (removeR r id, .ok ())

/-! ### Registry lemmas -/

/-- Removing `id` never binds it. -/
theorem lookupR_removeR_self (r : Registry) (id : String) :
    lookupR (removeR r id) id = none := by
  induction r with
  | nil => rfl
  | cons hd tl ih =>
    obtain ⟨k, v⟩ := hd
    by_cases hk : k = id
    · simpa [removeR, hk] using ih
    · simp [removeR, hk, lookupR, ih]

/-- Removing `id` leaves every other key's binding unchanged. -/
theorem lookupR_removeR_ne (r : Registry) (id k : String) (h : k ≠ id) :
    lookupR (removeR r id) k = lookupR r k := by
  induction r with
  | nil => rfl
  | cons hd tl ih =>
    obtain ⟨k0, v0⟩ := hd
    by_cases h0 : k0 = id
    · subst h0
      have hk : k0 ≠ k := fun hc => h hc.symm
      simp [removeR, lookupR, hk, ih]
    · by_cases h1 : k0 = k
      · subst h1
        simp [removeR, lookupR, h0, ih]
      · simp [removeR, h0, lookupR, h1, ih]

/-- Inserting at `id` binds `id` to the inserted pair. -/
theorem lookupR_insertR_self (r : Registry) (id : String) (p : PtyPair) :
    lookupR (insertR r id p) id = some p := by
  simp [insertR, lookupR]

/-- Inserting at `id` leaves every other key's binding unchanged. -/
theorem lookupR_insertR_ne (r : Registry) (id k : String) (p : PtyPair) (h : k ≠ id) :
    lookupR (insertR r id p) k = lookupR r k := by
  have : id ≠ k := fun hc => h hc.symm
  simp [insertR, lookupR, this, lookupR_removeR_ne r id k h]

/-- Removal is idempotent. -/
theorem removeR_removeR (r : Registry) (id : String) :
    removeR (removeR r id) id = removeR r id := by
  induction r with
  | nil => rfl
  | cons hd tl ih =>
    obtain ⟨k, v⟩ := hd
    by_cases hk : k = id
    · simp [removeR, hk, ih]
    · simp [removeR, hk, ih]

/-- Removing after inserting at the same key is removing from the start. -/
theorem removeR_insertR (r : Registry) (id : String) (p : PtyPair) :
    removeR (insertR r id p) id = removeR r id := by
  simp [insertR, removeR, removeR_removeR]

/-- A second insert at the same key overwrites the first. -/
theorem insertR_insertR (r : Registry) (id : String) (p q : PtyPair) :
    insertR (insertR r id p) id q = insertR r id q := by
  simp [insertR, removeR, removeR_removeR]

/-! ### Claims -/

/-- C4: for every session identifier absent from the registry, both
`write_pty` and `resize_pty` return the session-not-found error
("PTY not found") and leave the registry untouched; both embeddings are
total functions, so neither call blocks or panics. -/
theorem write_resize_absent_id (env : Env) (r : Registry) (id : String)
    (data : List Nat) (cols rows : Nat) (h : lookupR r id = none) :
    write_pty env r id data = (r, .error "PTY not found") ∧
    resize_pty env r id cols rows = (r, .error "PTY not found") := by
  constructor
  · simp [write_pty, h]
  · simp [resize_pty, h]

/-- Witness for C4 at the empty registry and id `"s1"`. -/
theorem write_resize_absent_id_witness :
    write_pty envOk [] "s1" [104] = ([], .error "PTY not found") ∧
    resize_pty envOk [] "s1" 120 40 = ([], .error "PTY not found") :=
  write_resize_absent_id envOk [] "s1" [104] 120 40 rfl

/-- C5: `destroy_pty` is idempotent: it always returns success (also when
`id` is absent), afterwards the registry has no entry for `id`, and a
repeated `destroy_pty` again returns success and leaves the same registry. -/
theorem destroy_idempotent (r : Registry) (id : String) :
    (destroy_pty r id).2 = .ok () ∧
    lookupR (destroy_pty r id).1 id = none ∧
    destroy_pty (destroy_pty r id).1 id = destroy_pty r id := by
  refine ⟨rfl, lookupR_removeR_self r id, ?_⟩
  simp [destroy_pty, removeR_removeR]

/-- C7: a successful `create_pty` registers a pair opened at the default
24 rows by 80 columns whose spawned child is the requested shell when one
is given and `"bash"` otherwise. -/
theorem create_default_size_and_shell (env : Env) (r : Registry) (id : String)
    (shell : Option String)
    (h1 : env.openptyErr = none) (h2 : env.spawnErr = none) :
    (create_pty env r id shell).2 = .ok () ∧
    lookupR (create_pty env r id shell).1 id = some (freshPair shell) ∧
    (freshPair shell).size.rows = 24 ∧
    (freshPair shell).size.cols = 80 ∧
    (∀ s, shell = some s → (freshPair shell).child = some s) ∧
    (shell = none → (freshPair shell).child = some "bash") := by
  refine ⟨?_, ?_, rfl, rfl, ?_, ?_⟩
  · simp [create_pty, h1, h2]
  · simp [create_pty, h1, h2, lookupR_insertR_self]
  · intro s hs; simp [freshPair, hs]
  · intro hs; simp [freshPair, hs]

/-- Witness for C7 with `id = "s1"`, no shell override. -/
theorem create_default_size_and_shell_witness :
    (create_pty envOk [] "s1" none).2 = .ok () ∧
    lookupR (create_pty envOk [] "s1" none).1 "s1" = some (freshPair none) ∧
    (freshPair none).size.rows = 24 ∧
    (freshPair none).size.cols = 80 ∧
    (∀ s, (none : Option String) = some s → (freshPair none).child = some s) ∧
    ((none : Option String) = none → (freshPair none).child = some "bash") :=
  create_default_size_and_shell envOk [] "s1" none rfl rfl

/-- C6: when every OS step of a `write_pty` call succeeds on a registered
session, the call returns success and appends to the handle's event trace
exactly one write of the given bytes, unaltered and in order, followed by
a flush, before returning. -/
theorem write_delivers_exact_bytes (env : Env) (r : Registry) (id : String)
    (data : List Nat) (pair : PtyPair)
    (hp : lookupR r id = some pair)
    (h1 : env.takeWriterErr = none) (h2 : env.writeErr = none)
    (h3 : env.flushErr = none) :
    (write_pty env r id data).2 = .ok () ∧
    Option.map PtyPair.writerEvents (lookupR (write_pty env r id data).1 id) =
      some (pair.writerEvents ++ [WriterEvent.write data, WriterEvent.flush]) := by
  constructor
  · simp [write_pty, hp, h1, h2, h3]
  · simp [write_pty, hp, h1, h2, h3, lookupR_insertR_self]

/-- Witness for C6: writing the bytes `[0, 255, 10]` (a NUL byte, a byte
that is not valid UTF-8 text, and a control byte) to a freshly created
session delivers exactly those bytes and then flushes. -/
theorem write_delivers_exact_bytes_witness :
    (write_pty envOk (create_pty envOk [] "s1" none).1 "s1" [0, 255, 10]).2 = .ok () ∧
    Option.map PtyPair.writerEvents
      (lookupR (write_pty envOk (create_pty envOk [] "s1" none).1 "s1" [0, 255, 10]).1 "s1") =
      some ((freshPair none).writerEvents ++
        [WriterEvent.write [0, 255, 10], WriterEvent.flush]) :=
  write_delivers_exact_bytes envOk (create_pty envOk [] "s1" none).1 "s1"
    [0, 255, 10] (freshPair none) (by rfl) rfl rfl rfl

/-- C8: on a registered session, `resize_pty id 120 40` is idempotent
under repetition: both applications succeed, the second leaves the
registry exactly as the first did, and the reported size is 120 columns
by 40 rows. -/
theorem resize_idempotent (env : Env) (r : Registry) (id : String)
    (pair : PtyPair) (hp : lookupR r id = some pair)
    (henv : env.resizeErr = none) :
    (resize_pty env r id 120 40).2 = .ok () ∧
    (resize_pty env (resize_pty env r id 120 40).1 id 120 40).2 = .ok () ∧
    (resize_pty env (resize_pty env r id 120 40).1 id 120 40).1 =
      (resize_pty env r id 120 40).1 ∧
    Option.map (fun p => (p.size.cols, p.size.rows))
      (lookupR (resize_pty env (resize_pty env r id 120 40).1 id 120 40).1 id) =
      some (120, 40) := by
  refine ⟨?_, ?_, ?_, ?_⟩
  · simp [resize_pty, hp, henv]
  · simp [resize_pty, hp, henv, lookupR_insertR_self]
  · simp [resize_pty, hp, henv, lookupR_insertR_self, insertR_insertR]
  · simp [resize_pty, hp, henv, lookupR_insertR_self]

/-- Witness for C8 on a freshly created session `"s1"`. -/
theorem resize_idempotent_witness :
    (resize_pty envOk (create_pty envOk [] "s1" none).1 "s1" 120 40).2 = .ok () ∧
    (resize_pty envOk
      (resize_pty envOk (create_pty envOk [] "s1" none).1 "s1" 120 40).1
      "s1" 120 40).2 = .ok () ∧
    (resize_pty envOk
      (resize_pty envOk (create_pty envOk [] "s1" none).1 "s1" 120 40).1
      "s1" 120 40).1 =
      (resize_pty envOk (create_pty envOk [] "s1" none).1 "s1" 120 40).1 ∧
    Option.map (fun p => (p.size.cols, p.size.rows))
      (lookupR (resize_pty envOk
        (resize_pty envOk (create_pty envOk [] "s1" none).1 "s1" 120 40).1
        "s1" 120 40).1 "s1") = some (120, 40) :=
  resize_idempotent envOk (create_pty envOk [] "s1" none).1 "s1"
    (freshPair none) (by rfl) rfl

/-- C9: frame property: for any two distinct session identifiers, each of
the four commands applied to the first leaves the registry binding of the
second exactly as it was, in every environment. -/
theorem frame_other_sessions (env : Env) (r : Registry) (id id2 : String)
    (shell : Option String) (data : List Nat) (cols rows : Nat)
    (h : id2 ≠ id) :
    lookupR (create_pty env r id shell).1 id2 = lookupR r id2 ∧
    lookupR (write_pty env r id data).1 id2 = lookupR r id2 ∧
    lookupR (resize_pty env r id cols rows).1 id2 = lookupR r id2 ∧
    lookupR (destroy_pty r id).1 id2 = lookupR r id2 := by
  refine ⟨?_, ?_, ?_, ?_⟩
  · unfold create_pty
    cases env.openptyErr with
    | some e => rfl
    | none =>
      cases env.spawnErr with
      | some e => rfl
      | none => simpa using lookupR_insertR_ne r id id2 (freshPair shell) h
  · unfold write_pty
    cases hl : lookupR r id with
    | none => rfl
    | some pair =>
      cases env.takeWriterErr with
      | some e => rfl
      | none =>
        cases env.writeErr with
        | some e => simpa using lookupR_insertR_ne r id id2 _ h
        | none =>
          cases env.flushErr with
          | some e => simpa using lookupR_insertR_ne r id id2 _ h
          | none => simpa using lookupR_insertR_ne r id id2 _ h
  · unfold resize_pty
    cases hl : lookupR r id with
    | none => rfl
    | some pair =>
      cases env.resizeErr with
      | some e => rfl
      | none => simpa using lookupR_insertR_ne r id id2 _ h
  · simpa [destroy_pty] using lookupR_removeR_ne r id id2 h

/-- Witness for C9 with ids `"s2"` and `"s1"` on a registry holding `"s2"`. -/
theorem frame_other_sessions_witness :
    lookupR (create_pty envOk (create_pty envOk [] "s2" none).1 "s1" none).1 "s2" =
      lookupR (create_pty envOk [] "s2" none).1 "s2" ∧
    lookupR (write_pty envOk (create_pty envOk [] "s2" none).1 "s1" [104]).1 "s2" =
      lookupR (create_pty envOk [] "s2" none).1 "s2" ∧
    lookupR (resize_pty envOk (create_pty envOk [] "s2" none).1 "s1" 120 40).1 "s2" =
      lookupR (create_pty envOk [] "s2" none).1 "s2" ∧
    lookupR (destroy_pty (create_pty envOk [] "s2" none).1 "s1").1 "s2" =
      lookupR (create_pty envOk [] "s2" none).1 "s2" :=
  frame_other_sessions envOk (create_pty envOk [] "s2" none).1 "s1" "s2"
    none [104] 120 40 (by decide)

/-- C10: atomicity on error: whenever a `write_pty` or `resize_pty` call
returns an error, the key set of the registry is unchanged: no binding is
inserted or removed, and any identifier bound before the call (in
particular the requested one) is still bound after it. -/
theorem write_resize_error_atomic (env : Env) (r : Registry) (id : String)
    (data : List Nat) (cols rows : Nat) :
    (∀ e, (write_pty env r id data).2 = .error e →
      ∀ k, (lookupR (write_pty env r id data).1 k).isSome = (lookupR r k).isSome) ∧
    (∀ e, (resize_pty env r id cols rows).2 = .error e →
      ∀ k, (lookupR (resize_pty env r id cols rows).1 k).isSome =
        (lookupR r k).isSome) := by
  constructor
  · intro e _ k
    unfold write_pty
    cases hl : lookupR r id with
    | none => rfl
    | some pair =>
      cases env.takeWriterErr with
      | some e2 => rfl
      | none =>
        have hins : ∀ p : PtyPair,
            (lookupR (insertR r id p) k).isSome = (lookupR r k).isSome := by
          intro p
          by_cases hk : k = id
          · subst hk; simp [lookupR_insertR_self, hl]
          · simp [lookupR_insertR_ne r id k p hk]
        cases env.writeErr with
        | some e2 => simpa using hins _
        | none =>
          cases env.flushErr with
          | some e2 => simpa using hins _
          | none => simpa using hins _
  · intro e _ k
    unfold resize_pty
    cases hl : lookupR r id with
    | none => rfl
    | some pair =>
      cases env.resizeErr with
      | some e2 => rfl
      | none =>
        by_cases hk : k = id
        · subst hk; simp [lookupR_insertR_self, hl]
        · simp [lookupR_insertR_ne r id k _ hk]

/-- Witness for C10: on a registry holding `"s1"`, a `write_pty` whose
`write_all` step fails and a `resize_pty` whose `resize` step fails both
leave every key's presence unchanged. -/
theorem write_resize_error_atomic_witness :
    ((write_pty
        { envOk with writeErr := some "boom" }
        (create_pty envOk [] "s1" none).1 "s1" [104]).2 = .error "boom" ∧
      (resize_pty
        { envOk with resizeErr := some "boom" }
        (create_pty envOk [] "s1" none).1 "s1" 120 40).2 = .error "boom") ∧
    ((lookupR (write_pty
        { envOk with writeErr := some "boom" }
        (create_pty envOk [] "s1" none).1 "s1" [104]).1 "s1").isSome =
      (lookupR (create_pty envOk [] "s1" none).1 "s1").isSome ∧
      (lookupR (resize_pty
        { envOk with resizeErr := some "boom" }
        (create_pty envOk [] "s1" none).1 "s1" 120 40).1 "s1").isSome =
      (lookupR (create_pty envOk [] "s1" none).1 "s1").isSome) :=
  ⟨⟨by rfl, by rfl⟩,
    ⟨(write_resize_error_atomic { envOk with writeErr := some "boom" }
        (create_pty envOk [] "s1" none).1 "s1" [104] 120 40).1
        "boom" (by rfl) "s1",
      (write_resize_error_atomic { envOk with resizeErr := some "boom" }
        (create_pty envOk [] "s1" none).1 "s1" [104] 120 40).2
        "boom" (by rfl) "s1"⟩⟩

/-- C1: evaluating `create_pty` on a fresh registry: the call succeeds and
registers the pair, but the registered pair has no background read task
draining its master end: `create_pty` returns right after the `insert`,
spawning nothing, so only the child process is reachable through the
registry entry and no output forwarder exists. -/
theorem create_starts_no_forwarder :
    (create_pty envOk [] "s1" none).2 = .ok () ∧
    Option.map PtyPair.forwarderStarted
      (lookupR (create_pty envOk [] "s1" none).1 "s1") = some false :=
  ⟨rfl, rfl⟩

/-- C2 counterexample: with `"s1"` already registered, a second
`create_pty "s1"` does not fail with a duplicate-session error: it
returns success, and it replaces the existing handle (the binding of
`"s1"` after the call differs from the one before it). -/
theorem create_duplicate_not_rejected :
    (create_pty envOk (create_pty envOk [] "s1" none).1 "s1" (some "zsh")).2 =
      .ok () ∧
    lookupR (create_pty envOk (create_pty envOk [] "s1" none).1 "s1"
        (some "zsh")).1 "s1" ≠
      lookupR (create_pty envOk [] "s1" none).1 "s1" := by
  exact ⟨rfl, by decide⟩

/-- C2 amended: when `id` is already present and the OS calls succeed,
`create_pty` succeeds anyway (no duplicate-session error) and replaces
the existing handle for `id` with the freshly created one, so two
`create_pty` calls for the same identifier can both succeed. -/
theorem create_overwrites_duplicate (env : Env) (r : Registry) (id : String)
    (shell : Option String) (p : PtyPair) (hp : lookupR r id = some p)
    (h1 : env.openptyErr = none) (h2 : env.spawnErr = none) :
    (create_pty env r id shell).2 = .ok () ∧
    lookupR (create_pty env r id shell).1 id = some (freshPair shell) := by
  constructor
  · simp [create_pty, h1, h2]
  · simp [create_pty, h1, h2, lookupR_insertR_self]

/-- Witness for the amended C2: re-creating `"s1"` with shell `"zsh"` over
an existing `"s1"` session succeeds and installs the new handle. -/
theorem create_overwrites_duplicate_witness :
    (create_pty envOk (create_pty envOk [] "s1" none).1 "s1" (some "zsh")).2 =
      .ok () ∧
    lookupR (create_pty envOk (create_pty envOk [] "s1" none).1 "s1"
        (some "zsh")).1 "s1" = some (freshPair (some "zsh")) :=
  create_overwrites_duplicate envOk (create_pty envOk [] "s1" none).1 "s1"
    (some "zsh") (freshPair none) (by rfl) rfl rfl

/-- C3: evaluating two consecutive successful `write_pty` calls on the
same freshly created session: both succeed, and afterwards the handle has
had its writable master handle acquired twice: `write_pty` runs
`take_writer` on every call instead of acquiring the writer once per
handle lifetime. -/
theorem write_takes_writer_each_call :
    (write_pty envOk (create_pty envOk [] "s1" none).1 "s1" [104, 105]).2 =
      .ok () ∧
    (write_pty envOk
      (write_pty envOk (create_pty envOk [] "s1" none).1 "s1" [104, 105]).1
      "s1" [104, 105]).2 = .ok () ∧
    Option.map PtyPair.writerTakes
      (lookupR (write_pty envOk
        (write_pty envOk (create_pty envOk [] "s1" none).1 "s1" [104, 105]).1
        "s1" [104, 105]).1 "s1") = some 2 :=
  ⟨rfl, rfl, rfl⟩
